import Mathlib

/-!
Verification of the `capture-powermetrics` capture pipeline.

The Python source (`src/python_powermetrics.py`) is shallowly embedded:
machine floats are modelled as exact rationals (`ℚ`), the worker's read
loop and the `__exit__` parse loop become folds over the list of text
lines they consume, and Python exceptions become `Except` errors.
-/

/-- ASCII whitespace, as recognised by Python `str.strip` / `str.split`
and by the `\s` class of the `re` module on ASCII input. -/
def pyIsSpace (c : Char) : Bool :=
  c = ' ' || c = '\t' || c = '\n' || c = '\x0b' || c = '\x0c' || c = '\r'

/-- Python `s.startswith(pre)`. -/
def pyStartsWith (s pre : String) : Bool :=
  pre.toList.isPrefixOf s.toList

/-- Python `s.strip()` (with no argument): remove leading and trailing
whitespace. -/
def pyStrip (s : String) : String :=
  ⟨((s.toList.dropWhile pyIsSpace).reverse.dropWhile pyIsSpace).reverse⟩

/-- Helper for `pySplitWs`: accumulate the current word (reversed) while
scanning the character list. -/
def pyWordsAux : List Char → List Char → List String
  | [], acc => if acc.isEmpty then [] else [⟨acc.reverse⟩]
  | c :: cs, acc =>
    if pyIsSpace c then
      if acc.isEmpty then pyWordsAux cs [] else ⟨acc.reverse⟩ :: pyWordsAux cs []
    else pyWordsAux cs (c :: acc)

/-- Python `s.split()` (with no argument): split on whitespace runs,
dropping empty pieces. -/
def pySplitWs (s : String) : List String :=
  pyWordsAux s.toList []

/-- Helper for `splitColonOnce`. -/
def splitColonAux : List Char → List Char → Option (String × String)
  | [], _ => none
  | c :: cs, acc =>
    if c = ':' then some (⟨acc.reverse⟩, ⟨cs⟩) else splitColonAux cs (c :: acc)

/-- Python `s.split(":", maxsplit=1)`: `some (before, after)` when the
string contains a colon, `none` when it does not (in which case indexing
the one-element result list at `[1]` raises `IndexError`). -/
def splitColonOnce (s : String) : Option (String × String) :=
  splitColonAux s.toList []

/-- Digit run to a natural number. -/
def digitsToNat (ds : List Char) : Nat :=
  ds.foldl (fun n c => 10 * n + (c.toNat - 48)) 0

/-- Python `float(s)` on the decimal literals that occur in power
readings: optional sign, digits with an optional fractional part, and an
optional decimal exponent.  `inf`/`nan` and underscore digit separators
have no counterpart in `ℚ` and never occur in `powermetrics` output;
they are modelled as parse failure. -/
def pyFloat? (s : String) : Option ℚ :=
  let cs := (pyStrip s).toList
  let (neg, cs) :=
    match cs with
    | '+' :: r => (false, r)
    | '-' :: r => (true, r)
    | r => (false, r)
  let ip := cs.takeWhile Char.isDigit
  let cs := cs.dropWhile Char.isDigit
  let (fp, cs) :=
    match cs with
    | '.' :: r => (r.takeWhile Char.isDigit, r.dropWhile Char.isDigit)
    | r => ([], r)
  if ip.isEmpty && fp.isEmpty then none
  else
    let eres : Option (ℤ × List Char) :=
      match cs with
      | 'e' :: r | 'E' :: r =>
        let (eneg, r) :=
          match r with
          | '+' :: r2 => (false, r2)
          | '-' :: r2 => (true, r2)
          | r2 => (false, r2)
        let ed := r.takeWhile Char.isDigit
        if ed.isEmpty then none
        else
          some (if eneg then -(digitsToNat ed : ℤ) else (digitsToNat ed : ℤ),
            r.dropWhile Char.isDigit)
      | r => some ((0 : ℤ), r)
    match eres with
    | none => none
    | some (ex, cs) =>
      if cs.isEmpty then
        let mant : ℚ := (digitsToNat ip : ℚ) + (digitsToNat fp : ℚ) / (10 : ℚ) ^ fp.length
        let v : ℚ := mant * (10 : ℚ) ^ ex
        some (if neg then -v else v)
      else none

/-- The literal marker opening every sample-boundary line. -/
def activityMarker : String := "*** Sampled system activity ("

/-- `_keep_line` from the source: accept boundary and power lines,
discard everything else. -/
def keep_line (line : String) : Bool :=
  if pyStartsWith line activityMarker then true
  else if pyStartsWith line "CPU Power" then true
  else if pyStartsWith line "GPU Power" then true
  else if pyStartsWith line "ANE Power" then true
  else false

/-- The worker's mutable state: the `ane_power_detected` local, the
`ane_seen_event` multiprocessing event, and the contents of the
`data_queue` channel (in FIFO order). -/
structure WState where
  ane_power_detected : Bool
  ane_seen_event : Bool
  data_queue : List String
deriving Repr, DecidableEq

/-- One iteration of `_worker`'s read loop on the line returned by
`readline` (an empty read makes the loop sleep and retry, leaving the
state unchanged). -/
def workerStep (st : WState) (line : String) : WState :=
  if line = "" then st
  else if keep_line line then
    if st.ane_power_detected then { st with data_queue := st.data_queue ++ [line] }
    else if pyStartsWith line "ANE Power" then
      { st with ane_power_detected := true, ane_seen_event := true }
    else st
  else st

/-- `_worker`'s read loop over the sequence of lines read from the
sampler's stdout before cancellation, started from the initial state. -/
def runWorker (ls : List String) : WState :=
  ls.foldl workerStep ⟨false, false, []⟩

/-- Abbreviated weekday names matched (case-insensitively) by the `%a`
directive of `datetime.strptime` in the C locale. -/
def dayNames : List String := ["mon", "tue", "wed", "thu", "fri", "sat", "sun"]

/-- Abbreviated month names matched (case-insensitively) by `%b`; the
list position gives the month number minus one. -/
def monthNames : List String :=
  ["jan", "feb", "mar", "apr", "may", "jun", "jul", "aug", "sep", "oct", "nov", "dec"]

/-- Case-insensitive literal-name match at the head of the input. -/
def matchNameCI (name : String) (cs : List Char) : Option (List Char) :=
  let n := name.toList
  if (cs.take n.length).map Char.toLower = n then some (cs.drop n.length) else none

/-- Try a list of candidate names in order, returning the 0-based index
of the first one matching at the head of the input. -/
def matchNameIdx (names : List String) (i : Nat) (cs : List Char) : Option (Nat × List Char) :=
  match names with
  | [] => none
  | n :: ns =>
    match matchNameCI n cs with
    | some r => some (i, r)
    | none => matchNameIdx ns (i + 1) cs

/-- The `\s+` a whitespace run in the format string turns into: at least
one whitespace character, consumed greedily. -/
def skipWs1 (cs : List Char) : Option (List Char) :=
  match cs with
  | c :: r => if pyIsSpace c then some (r.dropWhile pyIsSpace) else none
  | [] => none

/-- A literal character of the format string. -/
def expectChar (c : Char) : List Char → Option (List Char)
  | d :: r => if d = c then some r else none
  | [] => none

/-- A 1-or-2-digit numeric directive (`%d`, `%H`, `%M`, `%S`).  The
regex alternations consume two digits when two are available, requiring
`valid2` of the 2-digit value; a third consecutive digit can never be
matched by the following separator, and the 1-digit fallback would leave
the second digit unmatched, so those inputs fail.  A single available
digit must satisfy `valid1`. -/
def parseNum2 (valid2 : Nat → Bool) (valid1 : Nat → Bool) (cs : List Char) :
    Option (Nat × List Char) :=
  match cs with
  | c1 :: c2 :: r =>
    if c1.isDigit && c2.isDigit then
      let v := (c1.toNat - 48) * 10 + (c2.toNat - 48)
      if valid2 v then
        match r with
        | c3 :: _ => if c3.isDigit then none else some (v, r)
        | [] => some (v, r)
      else none
    else if c1.isDigit then
      let v := c1.toNat - 48
      if valid1 v then some (v, c2 :: r) else none
    else none
  | [c1] =>
    if c1.isDigit then
      let v := c1.toNat - 48
      if valid1 v then some (v, []) else none
    else none
  | [] => none

/-- The `%Y` directive: exactly four digits (a fifth consecutive digit
cannot be matched by the following whitespace, so it fails). -/
def parseYear4 (cs : List Char) : Option (Nat × List Char) :=
  match cs with
  | a :: b :: c :: d :: r =>
    if a.isDigit && b.isDigit && c.isDigit && d.isDigit then
      let v := digitsToNat [a, b, c, d]
      match r with
      | e :: _ => if e.isDigit then none else some (v, r)
      | [] => some (v, r)
    else none
  | _ => none

/-- The `%z` directive: `Z` (case-sensitive) or a signed
`HHMM`/`HH:MM` offset with optional seconds and an optional fractional
part of 1–6 digits.  Mixed use of the colon (only one of the two
separators) is rejected: either the regex fails or CPython's offset
conversion raises `ValueError`.  Returns the offset east of UTC in
seconds. -/
def parseZ (cs : List Char) : Option (ℚ × List Char) :=
  match cs with
  | 'Z' :: r => some (0, r)
  | c :: r =>
    if c = '+' || c = '-' then
      match r with
      | h1 :: h2 :: r2 =>
        if h1.isDigit && h2.isDigit then
          let hh := (h1.toNat - 48) * 10 + (h2.toNat - 48)
          let (colon1, r3) :=
            match r2 with
            | ':' :: r3 => (true, r3)
            | _ => (false, r2)
          match r3 with
          | m1 :: m2 :: r4 =>
            if m1.isDigit && m2.isDigit && decide (m1.toNat - 48 ≤ 5) then
              let mm := (m1.toNat - 48) * 10 + (m2.toNat - 48)
              let secPart : Option (Nat × List Char) :=
                match colon1, r4 with
                | true, ':' :: s1 :: s2 :: r5 =>
                  if s1.isDigit && s2.isDigit && decide (s1.toNat - 48 ≤ 5) then
                    some ((s1.toNat - 48) * 10 + (s2.toNat - 48), r5)
                  else none
                | false, s1 :: s2 :: r5 =>
                  if s1.isDigit && s2.isDigit && decide (s1.toNat - 48 ≤ 5) then
                    some ((s1.toNat - 48) * 10 + (s2.toNat - 48), r5)
                  else none
                | _, _ => none
              let (ss, frac, r6) :=
                match secPart with
                | some (ss, r5) =>
                  match r5 with
                  | '.' :: fr =>
                    let ds := fr.takeWhile Char.isDigit
                    if ds.isEmpty || decide (6 < ds.length) then (ss, none, r5)
                    else (ss, some ds, fr.dropWhile Char.isDigit)
                  | _ => (ss, none, r5)
                | none => (0, none, r4)
              match frac with
              | some ds =>
                let off : ℚ := (hh * 3600 + mm * 60 + ss : ℕ) +
                  (digitsToNat ds : ℚ) / (10 : ℚ) ^ ds.length
                if decide (off < 86400) then
                  some (if c = '-' then -off else off, r6)
                else none
              | none =>
                let off : ℚ := (hh * 3600 + mm * 60 + ss : ℕ)
                if decide (off < 86400) then
                  some (if c = '-' then -off else off, r6)
                else none
            else none
          | _ => none
        else none
      | _ => none
    else none
  | [] => none

/-- Proleptic-Gregorian leap year. -/
def isLeap (y : Nat) : Bool :=
  y % 4 == 0 && (y % 100 != 0 || y % 400 == 0)

/-- Length of a month, as enforced by `datetime.__new__`. -/
def daysInMonth (y m : Nat) : Nat :=
  match m with
  | 2 => if isLeap y then 29 else 28
  | 4 | 6 | 9 | 11 => 30
  | _ => 31

/-- Days from 1970-01-01 to the given civil date (era-based formula,
valid for the years `1..9999` that `datetime` admits). -/
def daysFromCivil (y m d : Nat) : Int :=
  let y2 : Int := if m ≤ 2 then (y : Int) - 1 else (y : Int)
  let era : Int := y2 / 400
  let yoe : Int := y2 - era * 400
  let mp : Int := if 2 < m then (m : Int) - 3 else (m : Int) + 9
  let doy : Int := (153 * mp + 2) / 5 + (d : Int) - 1
  let doe : Int := yoe * 365 + yoe / 4 - yoe / 100 + doy
  era * 146097 + doe - 719468

/-- The `%a %b %d` fragment of the format: weekday name (parsed and
discarded), month number (1-based) and day. -/
def parseMonthDay (cs : List Char) : Option (Nat × Nat × List Char) := do
  let r0 ← matchNameIdx dayNames 0 cs
  let cs1 ← skipWs1 r0.2
  let r1 ← matchNameIdx monthNames 0 cs1
  let cs2 ← skipWs1 r1.2
  let r2 ← parseNum2 (fun v => decide (1 ≤ v) && decide (v ≤ 31)) (fun v => decide (1 ≤ v)) cs2
  some (r1.1 + 1, r2.1, r2.2)

/-- The `%H:%M:%S` fragment (with the preceding whitespace run):
hour, minute and second. -/
def parseClock (cs : List Char) : Option (Nat × Nat × Nat × List Char) := do
  let cs0 ← skipWs1 cs
  let r3 ← parseNum2 (fun v => decide (v ≤ 23)) (fun _ => true) cs0
  let cs4 ← expectChar ':' r3.2
  let r4 ← parseNum2 (fun v => decide (v ≤ 59)) (fun _ => true) cs4
  let cs5 ← expectChar ':' r4.2
  let r5 ← parseNum2 (fun v => decide (v ≤ 61)) (fun _ => true) cs5
  some (r3.1, r4.1, r5.1, r5.2)

/-- The `%Y %z` fragment (with the preceding whitespace run): year and
zone offset in seconds. -/
def parseYearZone (cs : List Char) : Option (Nat × ℚ × List Char) := do
  let cs6 ← skipWs1 cs
  let r6 ← parseYear4 cs6
  let cs7 ← skipWs1 r6.2
  let r7 ← parseZ cs7
  some (r6.1, r7.1, r7.2)

/-- `float(datetime.strptime(s, "%a %b %d %H:%M:%S %Y %z").timestamp())`:
parse against the fixed format and convert the aware datetime to seconds
since the Unix epoch.  `none` models the `ValueError` raised when the
string does not match the format, when the date is invalid (e.g. Feb 30,
year 0), when a leap second 60/61 admitted by the `%S` regex is rejected
by the `datetime` constructor, or when the zone offset is out of
range. -/
def strptimeTs (s : String) : Option ℚ := do
  let md ← parseMonthDay s.toList
  let m := md.1
  let d := md.2.1
  let hms ← parseClock md.2.2
  let hh := hms.1
  let mi := hms.2.1
  let ss := hms.2.2.1
  let yz ← parseYearZone hms.2.2.2
  let y := yz.1
  let off := yz.2.1
  if yz.2.2.isEmpty && decide (1 ≤ y) && decide (d ≤ daysInMonth y m) && decide (ss ≤ 59) then
    some ((((daysFromCivil y m d) * 86400 + ((hh * 3600 + mi * 60 + ss : ℕ) : ℤ) : ℤ) : ℚ) - off)
  else none

/-- The result of `re.search(r"\((.*?)\)", line)` for a `line` that
starts with `activityMarker`: the marker holds the line's first `'('`,
so the group is the text between it and the first `')'` after it, if
any; with no `')'` in the remainder the search yields `None`. -/
def regexGroup (line : String) : Option String :=
  let rest := line.toList.drop activityMarker.toList.length
  if rest.contains ')' then some ⟨rest.takeWhile (· ≠ ')')⟩ else none

/-- The parse-stage state of `__exit__`: the four parallel series the
loop appends to. -/
structure PState where
  sample_times_s : List ℚ
  cpu_power_mW : List ℚ
  gpu_power_mW : List ℚ
  ane_power_mW : List ℚ
deriving Repr, DecidableEq

/-- The Python exceptions the `__exit__` parse loop can raise. -/
inductive PErr where
  /-- `AttributeError`: `match` is `None` and `.group(1)` is taken. -/
  | attributeError
  /-- `ValueError` from `datetime.strptime` / the `datetime` constructor. -/
  | timestampValueError
  /-- `IndexError`: `[1]` after a colon-less split, or `[0]` on an empty split. -/
  | indexError
  /-- `ValueError` from `float()`. -/
  | floatValueError
deriving Repr, DecidableEq

/-- `line.split(":", maxsplit=1)[1].strip().split()[0]` followed by
`float(...)`, as in the three power branches of the parse loop. -/
def powerValue (line : String) : Except PErr ℚ :=
  match splitColonOnce line with
  | none => .error .indexError
  | some (_, rest) =>
    match pySplitWs (pyStrip rest) with
    | [] => .error .indexError
    | tok :: _ =>
      match pyFloat? tok with
      | none => .error .floatValueError
      | some v => .ok v

/-- One iteration of the `__exit__` parse loop on a drained line. -/
def processLine (st : PState) (line : String) : Except PErr PState :=
  if pyStartsWith line activityMarker then
    match regexGroup line with
    | none => .error .attributeError
    | some g =>
      match strptimeTs g with
      | none => .error .timestampValueError
      | some t => .ok { st with sample_times_s := st.sample_times_s ++ [t] }
  else if pyStartsWith line "CPU Power" then
    match powerValue line with
    | .error e => .error e
    | .ok v => .ok { st with cpu_power_mW := st.cpu_power_mW ++ [v] }
  else if pyStartsWith line "GPU Power" then
    match powerValue line with
    | .error e => .error e
    | .ok v => .ok { st with gpu_power_mW := st.gpu_power_mW ++ [v] }
  else if pyStartsWith line "ANE Power" then
    match powerValue line with
    | .error e => .error e
    | .ok v => .ok { st with ane_power_mW := st.ane_power_mW ++ [v] }
  else .ok st

/-- The whole `__exit__` parse loop over the drained lines. -/
def parseLines (ls : List String) : Except PErr PState :=
  ls.foldlM processLine ⟨[], [], [], []⟩

/-- Elementwise product with NumPy's shape-1 broadcasting; `none` models
the broadcast error on incompatible shapes. -/
def broadcastMul (a b : List ℚ) : Option (List ℚ) :=
  if a.length = b.length then some (List.zipWith (· * ·) a b)
  else
    match a, b with
    | [x], _ => some (b.map fun v => x * v)
    | _, [y] => some (a.map fun v => v * y)
    | _, _ => none

/-- `np.trapz(y, x)`: `sum((x[1:] - x[:-1]) * (y[1:] + y[:-1]) / 2)`. -/
def np_trapz (y x : List ℚ) : Option ℚ :=
  let d := List.zipWith (fun a b => a - b) (x.drop 1) x.dropLast
  let s := List.zipWith (fun a b => (a + b) / 2) (y.drop 1) y.dropLast
  (broadcastMul d s).map List.sum

/-- The per-rail energies exposed after a capture. -/
structure CaptureResult where
  cpu_energy_J : ℚ
  gpu_energy_J : ℚ
  ane_energy_J : ℚ
deriving Repr, DecidableEq

def CONVERSION_FACTOR_mWs_TO_J : ℚ := 1 / 1000

/-- `_compute_energy`: trapezoidal integration of each rail against the
shared timestamp series, scaled from mW·s to J. -/
def compute_energy (st : PState) : Option CaptureResult := do
  let cpu_mWs ← np_trapz st.cpu_power_mW st.sample_times_s
  let gpu_mWs ← np_trapz st.gpu_power_mW st.sample_times_s
  let ane_mWs ← np_trapz st.ane_power_mW st.sample_times_s
  some ⟨cpu_mWs * CONVERSION_FACTOR_mWs_TO_J, gpu_mWs * CONVERSION_FACTOR_mWs_TO_J,
    ane_mWs * CONVERSION_FACTOR_mWs_TO_J⟩

/-- A finalization failure mode of `__exit__`. -/
inductive ExitErr where
  /-- A Python exception escaping the parse loop. -/
  | parseErr (e : PErr)
  /-- A NumPy broadcast failure inside `_compute_energy`. -/
  | numpyErr
deriving Repr, DecidableEq

/-- The finalization tail of `__exit__`: parse the drained lines, then
integrate.  An error at either stage means no `CaptureResult` is
produced. -/
def exitFinalize (ls : List String) : Except ExitErr CaptureResult :=
  match parseLines ls with
  | .error e => .error (.parseErr e)
  | .ok st =>
    match compute_energy st with
    | none => .error .numpyErr
    | some r => .ok r

/-- The spec's `Sample` record: a timestamp plus one value per rail. -/
structure Sample where
  timestamp : ℚ
  cpu_power_mW : ℚ
  gpu_power_mW : ℚ
  ane_power_mW : ℚ

/-- `integrate` on a sequence of complete samples: run `_compute_energy`
on the projected series. -/
def integrate (samples : List Sample) : Option CaptureResult :=
  compute_energy ⟨samples.map (·.timestamp), samples.map (·.cpu_power_mW),
    samples.map (·.gpu_power_mW), samples.map (·.ane_power_mW)⟩

/-- Trapezoid sum walking every consecutive pair of the series:
`Σ (x_(i+1) - x_i) · (y_(i+1) + y_i) / 2`. -/
def trapSum : List ℚ → List ℚ → ℚ
  | x1 :: x2 :: xs, y1 :: y2 :: ys => (x2 - x1) * ((y2 + y1) / 2) + trapSum (x2 :: xs) (y2 :: ys)
  | _, _ => 0

/-- Classifier test for sample-boundary lines. -/
def isBoundaryLine (l : String) : Bool := pyStartsWith l activityMarker

/-- Classifier test for field-setting power lines. -/
def isFieldLine (l : String) : Bool :=
  pyStartsWith l "CPU Power" || pyStartsWith l "GPU Power" || pyStartsWith l "ANE Power"

/-- Helper for `specSampleCount`: `openB` records whether a boundary has
opened an accumulator, `hasField` whether a field-setting line has been
seen since. -/
def specCountAux : List String → Bool → Bool → ℕ
  | [], openB, hasField => if openB && hasField then 1 else 0
  | l :: ls, openB, hasField =>
    if isBoundaryLine l then
      (if openB && hasField then 1 else 0) + specCountAux ls true false
    else if isFieldLine l then specCountAux ls openB true
    else specCountAux ls openB hasField

/-- Modelled from the spec: the number of samples the spec's `parse`
contract promises — the number of `SampleBoundary` lines followed by at
least one field-setting line before the next boundary (for comparison
with the implementation's behaviour; this definition follows the spec's
words, not the source). -/
def specSampleCount (ls : List String) : ℕ :=
  specCountAux ls false false

/-- The per-line timestamp contribution of the parse loop: the parsed
epoch seconds of a boundary line, nothing for any other line. -/
def boundaryTime (l : String) : Option ℚ :=
  if pyStartsWith l activityMarker then
    match regexGroup l with
    | some g => strptimeTs g
    | none => none
  else none

/-- The per-line CPU-series contribution of the parse loop. -/
def cpuValue? (l : String) : Option ℚ :=
  if pyStartsWith l activityMarker then none
  else if pyStartsWith l "CPU Power" then (powerValue l).toOption
  else none

/-- The per-line GPU-series contribution of the parse loop. -/
def gpuValue? (l : String) : Option ℚ :=
  if pyStartsWith l activityMarker then none
  else if pyStartsWith l "CPU Power" then none
  else if pyStartsWith l "GPU Power" then (powerValue l).toOption
  else none

/-- The per-line ANE-series contribution of the parse loop. -/
def aneValue? (l : String) : Option ℚ :=
  if pyStartsWith l activityMarker then none
  else if pyStartsWith l "CPU Power" then none
  else if pyStartsWith l "GPU Power" then none
  else if pyStartsWith l "ANE Power" then (powerValue l).toOption
  else none

/-- Per-line success of the parse loop (independent of the accumulated
state). -/
def lineOk (l : String) : Bool :=
  if pyStartsWith l activityMarker then
    match regexGroup l with
    | some g => (strptimeTs g).isSome
    | none => false
  else if pyStartsWith l "CPU Power" then (powerValue l).toOption.isSome
  else if pyStartsWith l "GPU Power" then (powerValue l).toOption.isSome
  else if pyStartsWith l "ANE Power" then (powerValue l).toOption.isSome
  else true

instance {ε α : Type} [DecidableEq ε] [DecidableEq α] : DecidableEq (Except ε α) :=
  fun a b =>
    match a, b with
    | .ok x, .ok y =>
      if h : x = y then isTrue (congrArg Except.ok h)
      else isFalse fun hc => h (by cases hc; rfl)
    | .error e, .error f =>
      if h : e = f then isTrue (congrArg Except.error h)
      else isFalse fun hc => h (by cases hc; rfl)
    | .ok _, .error _ => isFalse fun hc => Except.noConfusion hc
    | .error _, .ok _ => isFalse fun hc => Except.noConfusion hc

/-- The eight input lines of the spec's Scenario A. -/
def scenarioA : List String :=
  ["*** Sampled system activity (Mon Jan  1 00:00:00 2024 +0000)",
   "CPU Power: 100 mW", "GPU Power: 10 mW", "ANE Power: 5 mW",
   "*** Sampled system activity (Mon Jan  1 00:00:01 2024 +0000)",
   "CPU Power: 200 mW", "GPU Power: 20 mW", "ANE Power: 10 mW"]

/-- The `AssertionError` raised by a failed `assert` statement. -/
inductive EnterErr where
  | assertionError
deriving Repr, DecidableEq

/-- The acquisition-relevant state of a `CapturePowermetrics` session:
whether the worker process has been spawned and whether acquisition has
finished waiting on the readiness event. -/
structure SessionCtl where
  processSpawned : Bool
  readinessWaited : Bool
deriving Repr, DecidableEq

/-- `__enter__`: `assert os.geteuid() == 0` runs first; only when it
passes is the worker process created and started and the readiness event
awaited. -/
def enterSession (euid : ℕ) (s : SessionCtl) : Except EnterErr SessionCtl :=
  if euid = 0 then .ok { s with processSpawned := true, readinessWaited := true }
  else .error .assertionError

theorem workerStep_not_detected (st : WState) (l : String)
    (hdet : st.ane_power_detected = false)
    (h : pyStartsWith l "ANE Power" = false) : workerStep st l = st := by
  unfold workerStep
  split
  · rfl
  · rw [hdet, h]
    simp

theorem runWorker_aux_not_detected (ls : List String) (ev : Bool) (q : List String)
    (h : ∀ l ∈ ls, pyStartsWith l "ANE Power" = false) :
    ls.foldl workerStep ⟨false, ev, q⟩ = ⟨false, ev, q⟩ := by
  induction ls with
  | nil => rfl
  | cons l ls ih =>
    rw [List.foldl_cons, workerStep_not_detected _ _ rfl (h l (by simp))]
    exact ih fun p hp => h p (by simp [hp])

theorem keep_line_of_ane (l : String) (h : pyStartsWith l "ANE Power" = true) :
    keep_line l = true := by
  simp [keep_line, h]

theorem workerStep_detected (ev : Bool) (q : List String) (l : String) :
    workerStep ⟨true, ev, q⟩ l =
      if keep_line l then ⟨true, ev, q ++ [l]⟩ else ⟨true, ev, q⟩ := by
  unfold workerStep
  split
  · rename_i hl
    subst hl
    have : keep_line "" = false := by decide
    rw [this]
    simp
  · simp

theorem runWorker_aux_detected (ls : List String) (ev : Bool) (q : List String) :
    ls.foldl workerStep ⟨true, ev, q⟩ = ⟨true, ev, q ++ ls.filter keep_line⟩ := by
  induction ls generalizing q with
  | nil => simp
  | cons l ls ih =>
    rw [List.foldl_cons, workerStep_detected]
    by_cases hk : keep_line l
    · rw [if_pos hk, ih, List.filter_cons_of_pos hk, List.append_assoc]
      rfl
    · rw [if_neg hk, ih, List.filter_cons_of_neg (by simpa using hk)]

/-- C2 (confirmed): as long as no line classified `AnePower` (i.e. no
line starting with `"ANE Power"`) has been read, the worker's
`data_queue` channel stays empty, no matter how many `CpuPower` /
`GpuPower` / `SampleBoundary` lines arrive first.  Since the input
ranges over all line sequences, this is the claimed invariant at every
prefix of the read loop. -/
theorem gate_blocks_before_first_ane (ls : List String)
    (h : ∀ l ∈ ls, pyStartsWith l "ANE Power" = false) :
    (runWorker ls).data_queue = [] := by
  unfold runWorker
  rw [runWorker_aux_not_detected ls false [] h]

theorem gate_blocks_before_first_ane_witness :
    (∀ l ∈ ["*** Sampled system activity (Mon Jan  1 00:00:00 2024 +0000)",
        "CPU Power: 100 mW", "GPU Power: 10 mW", "noise"],
      pyStartsWith l "ANE Power" = false) ∧
    (runWorker ["*** Sampled system activity (Mon Jan  1 00:00:00 2024 +0000)",
        "CPU Power: 100 mW", "GPU Power: 10 mW", "noise"]).data_queue = [] :=
  ⟨by decide,
   gate_blocks_before_first_ane _ (by decide)⟩

/-- C1 (counterexample): on the input consisting of the single accepted
line `"ANE Power: 5 mW"` followed by `"GPU Power: 2 mW"`, the triggering
`AnePower` line is *not* among the forwarded lines — the worker only
sets its flag on the trigger and forwards from the next line on.  This
refutes the claim that the triggering line itself is forwarded. -/
theorem trigger_ane_line_not_forwarded :
    (runWorker ["ANE Power: 5 mW", "GPU Power: 2 mW"]).data_queue =
      ["GPU Power: 2 mW"] ∧
    "ANE Power: 5 mW" ∉ (runWorker ["ANE Power: 5 mW", "GPU Power: 2 mW"]).data_queue := by
  decide

/-- C1 (amended): once the first line classified `AnePower` has been
observed, the Supervisor forwards to the Channel every subsequently
accepted `SampleBoundary`/`CpuPower`/`GpuPower`/`AnePower` line
(excluding `Discard`), in order; the triggering `AnePower` line itself
is not forwarded, and nothing read before it is. -/
theorem forward_after_first_ane (pre : List String) (l : String) (post : List String)
    (hpre : ∀ p ∈ pre, pyStartsWith p "ANE Power" = false)
    (hl : pyStartsWith l "ANE Power" = true) :
    (runWorker (pre ++ l :: post)).data_queue = post.filter keep_line := by
  unfold runWorker
  rw [List.foldl_append, runWorker_aux_not_detected pre false [] hpre, List.foldl_cons]
  have hne : l ≠ "" := by
    intro he
    rw [he] at hl
    exact absurd hl (by decide)
  have hstep : workerStep ⟨false, false, []⟩ l = ⟨true, true, []⟩ := by
    unfold workerStep
    rw [if_neg hne, if_pos (keep_line_of_ane l hl)]
    simp [hl]
  rw [hstep, runWorker_aux_detected]
  rfl

theorem forward_after_first_ane_witness :
    (∀ p ∈ ["CPU Power: 1 mW"], pyStartsWith p "ANE Power" = false) ∧
    pyStartsWith "ANE Power: 5 mW" "ANE Power" = true ∧
    (runWorker (["CPU Power: 1 mW"] ++ "ANE Power: 5 mW" :: ["GPU Power: 2 mW", "junk"])).data_queue =
      ["GPU Power: 2 mW", "junk"].filter keep_line :=
  ⟨by decide, by decide,
   forward_after_first_ane ["CPU Power: 1 mW"] "ANE Power: 5 mW"
     ["GPU Power: 2 mW", "junk"] (by decide) (by decide)⟩

theorem filterMap_cons_toList {α β : Type} (f : α → Option β) (l : α) (ls : List α) :
    List.filterMap f (l :: ls) = (f l).toList ++ List.filterMap f ls := by
  cases h : f l <;> simp [List.filterMap_cons, h]

theorem processLine_ok_eq {st st2 : PState} {l : String}
    (h : processLine st l = .ok st2) :
    st2 = ⟨st.sample_times_s ++ (boundaryTime l).toList,
           st.cpu_power_mW ++ (cpuValue? l).toList,
           st.gpu_power_mW ++ (gpuValue? l).toList,
           st.ane_power_mW ++ (aneValue? l).toList⟩ := by
  unfold processLine at h
  unfold boundaryTime cpuValue? gpuValue? aneValue?
  repeat' split at h
  all_goals simp_all
  all_goals (cases h; rfl)

theorem processLine_error_of_bad {l : String} (h : lineOk l = false) (st : PState) :
    ∃ e, processLine st l = .error e := by
  unfold lineOk at h
  unfold processLine
  repeat' split
  all_goals simp_all [Except.toOption]

theorem parse_aux_ok_eq (ls : List String) : ∀ (st0 st : PState),
    ls.foldlM processLine st0 = .ok st →
    st = ⟨st0.sample_times_s ++ ls.filterMap boundaryTime,
          st0.cpu_power_mW ++ ls.filterMap cpuValue?,
          st0.gpu_power_mW ++ ls.filterMap gpuValue?,
          st0.ane_power_mW ++ ls.filterMap aneValue?⟩ := by
  induction ls with
  | nil =>
    intro st0 st h
    simp only [List.foldlM_nil] at h
    cases h
    simp
  | cons l ls ih =>
    intro st0 st h
    rw [List.foldlM_cons] at h
    cases hp : processLine st0 l with
    | error e =>
      rw [hp] at h
      simp [Bind.bind, Except.bind] at h
    | ok st1 =>
      rw [hp] at h
      simp only [Bind.bind, Except.bind] at h
      have h1 := ih st1 st h
      rw [processLine_ok_eq hp] at h1
      simp only [filterMap_cons_toList, ← List.append_assoc] at *
      exact h1

theorem parse_aux_error_of_bad (ls : List String) : ∀ (st0 : PState),
    (∃ l ∈ ls, lineOk l = false) → ∃ e, ls.foldlM processLine st0 = .error e := by
  induction ls with
  | nil =>
    rintro st0 ⟨l, hl, _⟩
    exact absurd hl (List.not_mem_nil l)
  | cons l ls ih =>
    rintro st0 ⟨b, hb, hbad⟩
    rw [List.foldlM_cons]
    rcases List.mem_cons.mp hb with rfl | hmem
    · obtain ⟨e, he⟩ := processLine_error_of_bad hbad st0
      exact ⟨e, by rw [he]; rfl⟩
    · cases hp : processLine st0 l with
      | error e => exact ⟨e, rfl⟩
      | ok st1 =>
        obtain ⟨e, he⟩ := ih st1 ⟨b, hmem, hbad⟩
        exact ⟨e, by simpa [Bind.bind, Except.bind] using he⟩

theorem parse_ok_all_lineOk {ls : List String} {st : PState}
    (h : parseLines ls = .ok st) : ∀ l ∈ ls, lineOk l = true := by
  intro l hl
  by_contra hfalse
  obtain ⟨e, he⟩ := parse_aux_error_of_bad ls ⟨[], [], [], []⟩
    ⟨l, hl, Bool.eq_false_iff.mpr hfalse⟩
  rw [parseLines, he] at h
  exact Except.noConfusion h

theorem boundaryTime_isSome_of_lineOk {l : String} (h : lineOk l = true) :
    (boundaryTime l).isSome = isBoundaryLine l := by
  unfold lineOk at h
  unfold boundaryTime isBoundaryLine
  repeat' split
  all_goals simp_all

theorem filterMap_boundary_length (ls : List String)
    (hall : ∀ l ∈ ls, lineOk l = true) :
    (ls.filterMap boundaryTime).length = (ls.filter isBoundaryLine).length := by
  induction ls with
  | nil => rfl
  | cons l ls ih =>
    have h1 := boundaryTime_isSome_of_lineOk (hall l (by simp))
    have ih2 := ih fun p hp => hall p (by simp [hp])
    cases hb : boundaryTime l with
    | none =>
      rw [hb] at h1
      rw [filterMap_cons_toList, hb, List.filter_cons_of_neg (by simp [← h1])]
      simpa using ih2
    | some t =>
      rw [hb] at h1
      rw [filterMap_cons_toList, hb, List.filter_cons_of_pos (by simp [← h1])]
      simpa using ih2

/-- C3 (counterexample): on the single-line input consisting of one
valid `SampleBoundary` line followed by no field-setting line, the parse
stage of `__exit__` still appends one sample timestamp, while the
claim's count of boundaries-followed-by-a-field-line
(`specSampleCount`, modelled from the spec) is `0` — so the number of
emitted samples does not equal that count. -/
theorem lone_boundary_still_counted :
    parseLines ["*** Sampled system activity (Mon Jan  1 00:00:00 2024 +0000)"] =
      .ok ⟨[1704067200], [], [], []⟩ ∧
    specSampleCount ["*** Sampled system activity (Mon Jan  1 00:00:00 2024 +0000)"] = 0 ∧
    ([(1704067200 : ℚ)].length ≠
      specSampleCount ["*** Sampled system activity (Mon Jan  1 00:00:00 2024 +0000)"]) := by
  refine ⟨by with_unfolding_all rfl, by decide, by decide⟩

/-- C3 (amended): when the parse stage of `__exit__` succeeds, the
emitted sample timestamps are exactly the parsed timestamps of the
`SampleBoundary` lines, in input order; hence the number of emitted
samples equals the number of `SampleBoundary` lines (whether or not a
field-setting line follows them), and the timestamps are non-decreasing
whenever the input's boundary timestamps occur in non-decreasing
order. -/
theorem parse_emits_one_sample_per_boundary (ls : List String) (st : PState)
    (h : parseLines ls = .ok st) :
    st.sample_times_s = ls.filterMap boundaryTime ∧
    st.sample_times_s.length = (ls.filter isBoundaryLine).length ∧
    (List.Chain' (· ≤ ·) (ls.filterMap boundaryTime) →
      List.Chain' (· ≤ ·) st.sample_times_s) := by
  have hq := parse_aux_ok_eq ls ⟨[], [], [], []⟩ st h
  subst hq
  refine ⟨rfl, ?_, fun hc => hc⟩
  exact filterMap_boundary_length ls (parse_ok_all_lineOk h)

theorem parse_emits_one_sample_per_boundary_witness :
    parseLines ["*** Sampled system activity (Mon Jan  1 00:00:00 2024 +0000)",
      "CPU Power: 100 mW"] = .ok ⟨[1704067200], [100], [], []⟩ ∧
    ([(1704067200 : ℚ)] =
      ["*** Sampled system activity (Mon Jan  1 00:00:00 2024 +0000)",
        "CPU Power: 100 mW"].filterMap boundaryTime ∧
      [(1704067200 : ℚ)].length =
        (["*** Sampled system activity (Mon Jan  1 00:00:00 2024 +0000)",
          "CPU Power: 100 mW"].filter isBoundaryLine).length ∧
      (List.Chain' (· ≤ ·)
          (["*** Sampled system activity (Mon Jan  1 00:00:00 2024 +0000)",
            "CPU Power: 100 mW"].filterMap boundaryTime) →
        List.Chain' (· ≤ ·) [(1704067200 : ℚ)])) :=
  ⟨by with_unfolding_all rfl,
   parse_emits_one_sample_per_boundary _ ⟨[1704067200], [100], [], []⟩
     (by with_unfolding_all rfl)⟩

/-- C4 (counterexample): two `CPU Power` lines inside the same boundary
produce a CPU series `[1, 2]` that keeps both values — the earlier value
is not overwritten by the latest one — and the rails with no line (GPU,
ANE) stay empty instead of receiving a default `0.0` entry.  This
refutes the claimed overwrite-and-default accumulator semantics. -/
theorem duplicate_rail_values_both_kept :
    parseLines ["*** Sampled system activity (Mon Jan  1 00:00:00 2024 +0000)",
      "CPU Power: 1 mW", "CPU Power: 2 mW"] =
      .ok ⟨[1704067200], [1, 2], [], []⟩ ∧
    ([(1 : ℚ), 2] ≠ [(2 : ℚ)]) ∧ (([] : List ℚ) ≠ [(0 : ℚ)]) := by
  refine ⟨by with_unfolding_all rfl, by with_unfolding_all decide, by decide⟩

/-- C4 (amended): each power line appends its parsed value to the
corresponding rail's series: when the parse stage of `__exit__`
succeeds, each rail's series is exactly the list of that rail's line
values in input order — duplicate rail lines within one boundary
contribute one entry each (earlier values are retained, not
overwritten), and a rail with no line between boundaries contributes no
entry (there is no 0.0 default at parse time). -/
theorem power_lines_append_values (ls : List String) (st : PState)
    (h : parseLines ls = .ok st) :
    st.cpu_power_mW = ls.filterMap cpuValue? ∧
    st.gpu_power_mW = ls.filterMap gpuValue? ∧
    st.ane_power_mW = ls.filterMap aneValue? := by
  have hq := parse_aux_ok_eq ls ⟨[], [], [], []⟩ st h
  subst hq
  exact ⟨rfl, rfl, rfl⟩

theorem power_lines_append_values_witness :
    parseLines ["CPU Power: 1 mW", "CPU Power: 2 mW"] = .ok ⟨[], [1, 2], [], []⟩ ∧
    ([(1 : ℚ), 2] = ["CPU Power: 1 mW", "CPU Power: 2 mW"].filterMap cpuValue? ∧
      ([] : List ℚ) = ["CPU Power: 1 mW", "CPU Power: 2 mW"].filterMap gpuValue? ∧
      ([] : List ℚ) = ["CPU Power: 1 mW", "CPU Power: 2 mW"].filterMap aneValue?) :=
  ⟨by with_unfolding_all rfl,
   power_lines_append_values _ ⟨[], [1, 2], [], []⟩ (by with_unfolding_all rfl)⟩

/-- C8 (confirmed): if the drained lines contain a sample-boundary line
whose parenthesized timestamp text fails `strptime`, finalization fails
with a parse-stage error — no `CaptureResult` is produced, rather than
a silently wrong one. -/
theorem bad_timestamp_aborts_finalization (ls : List String) (l g : String)
    (hmem : l ∈ ls) (hbd : pyStartsWith l activityMarker = true)
    (hg : regexGroup l = some g) (hts : strptimeTs g = none) :
    ∃ e, exitFinalize ls = .error (.parseErr e) := by
  have hbad : lineOk l = false := by
    simp [lineOk, hbd, hg, hts]
  obtain ⟨e, he⟩ := parse_aux_error_of_bad ls ⟨[], [], [], []⟩ ⟨l, hmem, hbad⟩
  refine ⟨e, ?_⟩
  unfold exitFinalize parseLines
  rw [he]

theorem bad_timestamp_aborts_finalization_witness :
    ("*** Sampled system activity (BAD)" ∈ ["*** Sampled system activity (BAD)"] ∧
      pyStartsWith "*** Sampled system activity (BAD)" activityMarker = true ∧
      regexGroup "*** Sampled system activity (BAD)" = some "BAD" ∧
      strptimeTs "BAD" = none) ∧
    ∃ e, exitFinalize ["*** Sampled system activity (BAD)"] = .error (.parseErr e) :=
  ⟨⟨by decide, by decide, by decide, by decide⟩,
   bad_timestamp_aborts_finalization ["*** Sampled system activity (BAD)"]
     "*** Sampled system activity (BAD)" "BAD" (by decide) (by decide) (by decide) (by decide)⟩

/-- C10 (confirmed): a line that begins with the sample-boundary marker
but contains no closing parenthesis is accepted by `_keep_line`, yet the
parse step fails on it with `AttributeError` (the regex search returns
`None` and `.group(1)` is taken on it) — an error distinct from the
timestamp `ValueError`; so the parse stage is not total on
classifier-accepted lines. -/
theorem unclosed_boundary_fails_differently (l : String) (st : PState)
    (h1 : pyStartsWith l activityMarker = true) (h2 : (')') ∉ l.toList) :
    keep_line l = true ∧ processLine st l = .error .attributeError ∧
      PErr.attributeError ≠ PErr.timestampValueError := by
  have hg : regexGroup l = none := by
    have hnot : (')') ∉ l.toList.drop activityMarker.toList.length :=
      fun hc => h2 (List.drop_subset _ _ hc)
    simp only [regexGroup]
    rw [if_neg (by simpa using hnot)]
  exact ⟨by simp [keep_line, h1], by simp [processLine, h1, hg], by decide⟩

theorem unclosed_boundary_fails_differently_witness :
    (pyStartsWith "*** Sampled system activity (oops" activityMarker = true ∧
      (')') ∉ "*** Sampled system activity (oops".toList) ∧
    (keep_line "*** Sampled system activity (oops" = true ∧
      processLine ⟨[], [], [], []⟩ "*** Sampled system activity (oops" =
        .error .attributeError ∧
      PErr.attributeError ≠ PErr.timestampValueError) :=
  ⟨⟨by decide, by decide⟩,
   unclosed_boundary_fails_differently "*** Sampled system activity (oops"
     ⟨[], [], [], []⟩ (by decide) (by decide)⟩

theorem zipTrap_sum (x : List ℚ) : ∀ (y : List ℚ), y.length = x.length →
    (List.zipWith (· * ·) (List.zipWith (fun a b => a - b) (x.drop 1) x.dropLast)
      (List.zipWith (fun a b => (a + b) / 2) (y.drop 1) y.dropLast)).sum = trapSum x y := by
  induction x with
  | nil =>
    intro y h
    have hy : y = [] := List.length_eq_zero.mp (by simpa using h)
    subst hy
    rfl
  | cons a xs ih =>
    intro y h
    cases y with
    | nil => simp at h
    | cons b ys =>
      cases xs with
      | nil =>
        cases ys with
        | nil => rfl
        | cons c cs => simp at h
      | cons a2 xs2 =>
        cases ys with
        | nil => simp at h
        | cons b2 ys2 =>
          have hlen : (b2 :: ys2).length = (a2 :: xs2).length := by
            simpa using h
          show (a2 - a) * ((b2 + b) / 2) +
            (List.zipWith (· * ·)
              (List.zipWith (fun a b => a - b) ((a2 :: xs2).drop 1) (a2 :: xs2).dropLast)
              (List.zipWith (fun a b => (a + b) / 2) ((b2 :: ys2).drop 1)
                (b2 :: ys2).dropLast)).sum =
            trapSum (a :: a2 :: xs2) (b :: b2 :: ys2)
          rw [ih (b2 :: ys2) hlen]
          rfl

theorem np_trapz_eq (y x : List ℚ) (h : y.length = x.length) :
    np_trapz y x = some (trapSum x y) := by
  have hl : (List.zipWith (fun a b => a - b) (x.drop 1) x.dropLast).length
      = (List.zipWith (fun a b => (a + b) / 2) (y.drop 1) y.dropLast).length := by
    simp [h]
  simp only [np_trapz, broadcastMul]
  rw [if_pos hl]
  simp only [Option.map_some']
  rw [zipTrap_sum x y h]

/-- C5 (confirmed): on a sequence of complete `Sample` records,
`integrate` always succeeds, and each rail's energy is the trapezoid sum
taken over the full shared timestamp series — every consecutive pair of
sample timestamps contributes to every rail, including samples whose
power value for that rail is `0.0`; no rail is ever integrated over a
series shorter than the timestamp series. -/
theorem integrate_uses_full_timestamp_series (samples : List Sample) :
    integrate samples = some
      ⟨trapSum (samples.map (·.timestamp)) (samples.map (·.cpu_power_mW)) *
        CONVERSION_FACTOR_mWs_TO_J,
       trapSum (samples.map (·.timestamp)) (samples.map (·.gpu_power_mW)) *
        CONVERSION_FACTOR_mWs_TO_J,
       trapSum (samples.map (·.timestamp)) (samples.map (·.ane_power_mW)) *
        CONVERSION_FACTOR_mWs_TO_J⟩ := by
  unfold integrate compute_energy
  rw [np_trapz_eq _ _ (by simp), np_trapz_eq _ _ (by simp), np_trapz_eq _ _ (by simp)]
  rfl

/-- C6 (confirmed): `integrate` on fewer than 2 samples (0 or 1) yields
a `CaptureResult` with all three energies equal to `0.0` — there is no
interval to integrate over. -/
theorem integrate_short_returns_zero (samples : List Sample)
    (h : samples.length < 2) :
    integrate samples = some ⟨0, 0, 0⟩ := by
  match samples with
  | [] => with_unfolding_all rfl
  | [s] =>
    show compute_energy ⟨[s.timestamp], [s.cpu_power_mW], [s.gpu_power_mW],
      [s.ane_power_mW]⟩ = some ⟨0, 0, 0⟩
    have h1 : np_trapz [s.cpu_power_mW] [s.timestamp] = some (0 : ℚ) := rfl
    have h2 : np_trapz [s.gpu_power_mW] [s.timestamp] = some (0 : ℚ) := rfl
    have h3 : np_trapz [s.ane_power_mW] [s.timestamp] = some (0 : ℚ) := rfl
    unfold compute_energy
    rw [h1, h2, h3]
    show (some (⟨0 * CONVERSION_FACTOR_mWs_TO_J, 0 * CONVERSION_FACTOR_mWs_TO_J,
      0 * CONVERSION_FACTOR_mWs_TO_J⟩ : CaptureResult) : Option CaptureResult) =
      some ⟨0, 0, 0⟩
    simp
  | _ :: _ :: _ => simp at h; omega

theorem integrate_short_returns_zero_witness :
    ([] : List Sample).length < 2 ∧ integrate ([] : List Sample) = some ⟨0, 0, 0⟩ :=
  ⟨by decide, integrate_short_returns_zero [] (by decide)⟩

/-- C7 (counterexample): the two samples parsed from Scenario A do not
sit at `t = 0 s` and `t = 1 s`: `strptime(...).timestamp()` yields
absolute epoch seconds, so the parsed sample timestamps are
`1704067200` and `1704067201` (one second apart), not `0` and `1`. -/
theorem scenarioA_timestamps_are_epoch_seconds :
    parseLines scenarioA = .ok ⟨[1704067200, 1704067201], [100, 200], [10, 20], [5, 10]⟩ ∧
    ([(1704067200 : ℚ), 1704067201] ≠ [(0 : ℚ), 1]) := by
  refine ⟨by with_unfolding_all rfl, by with_unfolding_all decide⟩

/-- C7 (amended): on Scenario A the pipeline parses exactly two samples,
at epoch timestamps `1704067200 s` and `1704067201 s` (one second
apart), and finalization produces the trapezoidal energies
`cpu_energy_J = 0.15`, `gpu_energy_J = 0.015`, `ane_energy_J = 0.0075`
(as exact rationals `3/20`, `3/200`, `3/400`). -/
theorem scenarioA_energies :
    parseLines scenarioA = .ok ⟨[1704067200, 1704067201], [100, 200], [10, 20], [5, 10]⟩ ∧
    ((1704067201 : ℚ) = 1704067200 + 1) ∧
    exitFinalize scenarioA = .ok ⟨3 / 20, 3 / 200, 3 / 400⟩ := by
  refine ⟨by with_unfolding_all rfl, by norm_num, by with_unfolding_all rfl⟩

/-- C9 (confirmed): acquisition without root (`euid ≠ 0`) fails
immediately with the assertion error, before the Supervisor process is
spawned and before any other acquisition step runs: the session state is
returned unchanged inside the error path (the `assert` precedes every
mutation of `__enter__`). -/
theorem enter_requires_root (euid : ℕ) (s : SessionCtl) (h : euid ≠ 0) :
    enterSession euid s = .error .assertionError ∧
      ∀ s2, enterSession euid s = .ok s2 → False := by
  unfold enterSession
  rw [if_neg h]
  exact ⟨rfl, fun s2 hc => Except.noConfusion hc⟩

theorem enter_requires_root_witness :
    (1000 : ℕ) ≠ 0 ∧
    (enterSession 1000 ⟨false, false⟩ = .error .assertionError ∧
      ∀ s2, enterSession 1000 ⟨false, false⟩ = .ok s2 → False) :=
  ⟨by decide, enter_requires_root 1000 ⟨false, false⟩ (by decide)⟩
